import Mathlib

/-!
Verification of the supermarketing device-fleet orchestrator.

This file shallowly embeds the job/task store (src/database.js), the
comment-cycle state machine (src/database.js), the mirror gesture
controller (MirrorController) and the streaming capture loop
(src/ScrcpyStreamer.js), and proves the specification's testable
properties about them.
-/

namespace Supermarketing

/-! ## Task store (src/database.js, tasks table) -/

/-- Task status values written by the code: default is the string
constant pending; getNextTask writes running; completeTask writes
completed; failTask writes failed; the cancel-job handler writes
cancelled. -/
inductive TaskStatus where
  | pending
  | running
  | completed
  | failed
  | cancelled
deriving DecidableEq, Repr

/-- A row of the tasks table (columns that the task operations touch). -/
structure Task where
  id : String
  job_id : String
  type : String
  assigned_device : String
  status : TaskStatus
deriving DecidableEq, Repr

/-- The tasks table, rows in insertion (rowid) order. -/
abbrev TaskTable := List Task

/-- Row predicate of getNextTask's SELECT: job_id = ? AND
status = pending AND assigned_device = ?. -/
def matchesClaim (jobId deviceId : String) (t : Task) : Bool :=
  t.job_id == jobId && t.status == .pending && t.assigned_device == deviceId

/-- The UPDATE getNextTask issues: SET status = running WHERE id = taskId. -/
def markRunning (taskId : String) (db : TaskTable) : TaskTable :=
  db.map fun u => if u.id == taskId then { u with status := .running } else u

/-- getNextTask (src/database.js lines 294 to 326): select the first
pending task of the job assigned to the device; when found, mark it
running and return it, otherwise return null and leave the table
unchanged. -/
def getNextTask (jobId deviceId : String) (db : TaskTable) :
    Option Task × TaskTable :=
  match db.find? (matchesClaim jobId deviceId) with
  | none => (none, db)
  | some t => (some t, markRunning t.id db)

/-- Result shape of getTaskCounts. -/
structure TaskCounts where
  completed : Nat
  failed : Nat
  pending : Nat
  running : Nat
deriving DecidableEq, Repr

/-- Number of the job's tasks in a given status (one SUM CASE column of
getTaskCounts' query). -/
def countStatus (jobId : String) (s : TaskStatus) (db : TaskTable) : Nat :=
  (db.filter fun t => t.job_id == jobId && t.status == s).length

/-- getTaskCounts (src/database.js lines 350 to 378): per-status sums over
the job's tasks, one bucket each for completed, failed, pending, running. -/
def getTaskCounts (jobId : String) (db : TaskTable) : TaskCounts :=
  { completed := countStatus jobId .completed db
    failed := countStatus jobId .failed db
    pending := countStatus jobId .pending db
    running := countStatus jobId .running db }

/-- The UPDATE of the cancel-job handler (src/main.js lines 473 to 475):
SET status = cancelled WHERE job_id = ? AND status IN (pending, running). -/
def cancelJobTasks (jobId : String) (db : TaskTable) : TaskTable :=
  db.map fun t =>
    if t.job_id == jobId && (t.status == .pending || t.status == .running)
    then { t with status := .cancelled } else t

/-- All tasks belonging to a job. -/
def jobTasks (jobId : String) (db : TaskTable) : TaskTable :=
  db.filter fun t => t.job_id == jobId

/-- Repeated claim calls: run getNextTask n times sequentially (the
single-threaded runtime serializes overlapping calls), returning the
list of per-call results and the final table. -/
def claimRepeat (jobId deviceId : String) : Nat → TaskTable →
    List (Option Task) × TaskTable
  | 0, db => ([], db)
  | n + 1, db =>
      let step := getNextTask jobId deviceId db
      let rest := claimRepeat jobId deviceId n step.2
      (step.1 :: rest.1, rest.2)

/-! ### Lemmas about the task store -/

theorem countStatus_cons (jobId : String) (s : TaskStatus) (t : Task)
    (db : TaskTable) :
    countStatus jobId s (t :: db) =
      (if t.job_id == jobId && t.status == s then 1 else 0) +
        countStatus jobId s db := by
  simp only [countStatus, List.filter_cons]
  by_cases h : (t.job_id == jobId && t.status == s) = true
  · simp [h]
    omega
  · simp [h]

/-- Every task of a job falls in exactly one of the five status buckets. -/
theorem counts_partition (jobId : String) (db : TaskTable) :
    countStatus jobId .completed db + countStatus jobId .failed db +
      countStatus jobId .pending db + countStatus jobId .running db +
      countStatus jobId .cancelled db = (jobTasks jobId db).length := by
  induction db with
  | nil => rfl
  | cons t db ih =>
      simp only [countStatus_cons, jobTasks, List.filter_cons]
      simp only [jobTasks] at ih
      by_cases hj : (t.job_id == jobId) = true
      · cases hs : t.status <;> simp [hj, hs] <;> omega
      · simp [hj]
        omega

/-- When no task matches the claim predicate, getNextTask is a no-op
returning null. -/
theorem getNextTask_none (jobId deviceId : String) (db : TaskTable)
    (h : db.filter (matchesClaim jobId deviceId) = []) :
    getNextTask jobId deviceId db = (none, db) := by
  have hfind : db.find? (matchesClaim jobId deviceId) = none := by
    rw [List.find?_eq_none]
    intro x hx hpx
    have : x ∈ db.filter (matchesClaim jobId deviceId) :=
      List.mem_filter.mpr ⟨hx, hpx⟩
    simp [h] at this
  simp [getNextTask, hfind]

/-- A task set to running never matches the claim predicate. -/
theorem matchesClaim_markRunning_elem (jobId deviceId taskId : String)
    (u : Task) :
    matchesClaim jobId deviceId
      (if u.id == taskId then { u with status := .running } else u) = true →
    matchesClaim jobId deviceId u = true := by
  by_cases h : (u.id == taskId) = true
  · simp [h, matchesClaim]
  · simp [h]

/-- When exactly one task matches the claim predicate, getNextTask returns
it, marks it running, and afterwards no task matches any more. -/
theorem getNextTask_unique (jobId deviceId : String) (db : TaskTable)
    (t : Task) (h : db.filter (matchesClaim jobId deviceId) = [t]) :
    getNextTask jobId deviceId db = (some t, markRunning t.id db) ∧
      (markRunning t.id db).filter (matchesClaim jobId deviceId) = [] := by
  induction db with
  | nil => simp at h
  | cons x xs ih =>
      by_cases hx : matchesClaim jobId deviceId x = true
      · -- head matches: it is the unique match, the tail has none
        have hcons : x = t ∧ ∀ a ∈ xs, matchesClaim jobId deviceId a = false := by
          simpa [List.filter_cons, hx] using h
        obtain ⟨hxt, htail⟩ := hcons
        have hxs : xs.filter (matchesClaim jobId deviceId) = [] :=
          List.filter_eq_nil_iff.mpr (by
            intro a ha
            simp [htail a ha])
        subst hxt
        constructor
        · simp [getNextTask, List.find?_cons, hx]
        · rw [List.filter_eq_nil_iff]
          intro u hu
          simp only [markRunning, List.mem_map] at hu
          obtain ⟨v, hv, huv⟩ := hu
          intro hmatch
          have hvmatch := matchesClaim_markRunning_elem jobId deviceId x.id v
            (by rw [huv]; exact hmatch)
          rcases List.mem_cons.mp hv with hvx | hvxs
          · subst hvx
            rw [← huv] at hmatch
            simp only [beq_self_eq_true, if_true] at hmatch
            simp [matchesClaim] at hmatch
          · have : v ∈ xs.filter (matchesClaim jobId deviceId) :=
              List.mem_filter.mpr ⟨hvxs, hvmatch⟩
            simp [hxs] at this
      · -- head does not match: recurse into the tail
        have hxs : xs.filter (matchesClaim jobId deviceId) = [t] := by
          simpa [List.filter_cons, hx] using h
        obtain ⟨ih1, ih2⟩ := ih hxs
        have hfind : xs.find? (matchesClaim jobId deviceId) = some t := by
          simp only [getNextTask] at ih1
          rcases hf : xs.find? (matchesClaim jobId deviceId) with _ | u
          · simp [hf] at ih1
          · simp only [hf] at ih1
            simpa using congrArg Prod.fst ih1
        constructor
        · simp [getNextTask, List.find?_cons, hx, hfind]
        · have hxkeep : matchesClaim jobId deviceId
              (if x.id == t.id then { x with status := .running } else x)
              = false := by
            by_cases hxi : (x.id == t.id) = true
            · simp [hxi, matchesClaim]
            · simp [hxi, hx]
          simp only [markRunning, List.map_cons, List.filter_cons, hxkeep,
            Bool.false_eq_true, if_false]
          simpa [markRunning] using ih2

/-- After the unique matching task is claimed, every further claim call is
a no-op returning null. -/
theorem claimRepeat_drained (jobId deviceId : String) (n : Nat)
    (db : TaskTable) (h : db.filter (matchesClaim jobId deviceId) = []) :
    claimRepeat jobId deviceId n db = (List.replicate n none, db) := by
  induction n with
  | zero => rfl
  | succ n ih =>
      simp [claimRepeat, getNextTask_none jobId deviceId db h, ih,
        List.replicate_succ]

/-! ### Claims C1 and C2 -/

/-- C1, counterexample: a job with one pending task is cancelled; the
cancel-job handler force-transitions the task to cancelled, after which
getTaskCounts' four buckets sum to 0 while the job still has 1 task. -/
theorem C1_counterexample :
    ¬ ((getTaskCounts "j1" (cancelJobTasks "j1"
          [⟨"t1", "j1", "comment", "d1", .pending⟩])).completed +
       (getTaskCounts "j1" (cancelJobTasks "j1"
          [⟨"t1", "j1", "comment", "d1", .pending⟩])).failed +
       (getTaskCounts "j1" (cancelJobTasks "j1"
          [⟨"t1", "j1", "comment", "d1", .pending⟩])).pending +
       (getTaskCounts "j1" (cancelJobTasks "j1"
          [⟨"t1", "j1", "comment", "d1", .pending⟩])).running =
       (jobTasks "j1" (cancelJobTasks "j1"
          [⟨"t1", "j1", "comment", "d1", .pending⟩])).length) := by
  decide

/-- C1, amended: for every job and task table, the four buckets of
getTaskCounts sum to the number of the job's tasks minus its cancelled
tasks; the claimed equality with the total task count therefore holds
exactly when the job has no cancelled task, and job cancellation breaks
it for every pending or running task it force-transitions. -/
theorem C1_task_counts_sum (jobId : String) (db : TaskTable) :
    (getTaskCounts jobId db).completed + (getTaskCounts jobId db).failed +
      (getTaskCounts jobId db).pending + (getTaskCounts jobId db).running =
      (jobTasks jobId db).length - countStatus jobId .cancelled db := by
  have h := counts_partition jobId db
  simp only [getTaskCounts]
  omega

/-- C2: when exactly one pending task of the job is pre-assigned to the
device, n sequential claim calls (the single-threaded runtime serializes
overlapping getNextTask calls) return that task exactly once and null the
other n minus 1 times, and the final table is the original with exactly
that one task marked running — at-most-once claiming. -/
theorem C2_claim_at_most_once (jobId deviceId : String) (db : TaskTable)
    (t : Task) (n : Nat)
    (h : db.filter (matchesClaim jobId deviceId) = [t]) (hn : 1 ≤ n) :
    claimRepeat jobId deviceId n db =
      (some t :: List.replicate (n - 1) none, markRunning t.id db) := by
  obtain ⟨m, rfl⟩ : ∃ m, n = m + 1 := ⟨n - 1, by omega⟩
  obtain ⟨h1, h2⟩ := getNextTask_unique jobId deviceId db t h
  simp [claimRepeat, h1, claimRepeat_drained jobId deviceId m _ h2]

/-- Witness for C2 at a concrete table: two pending tasks of job1, one
assigned to each device; three claim calls for (job1, dev1) yield the
dev1 task once, then two nulls. -/
theorem C2_claim_at_most_once_witness :
    claimRepeat "job1" "dev1" 3
        [⟨"t1", "job1", "comment", "dev1", .pending⟩,
         ⟨"t2", "job1", "comment", "dev2", .pending⟩] =
      (some ⟨"t1", "job1", "comment", "dev1", .pending⟩ ::
        List.replicate (3 - 1) none,
       markRunning "t1"
        [⟨"t1", "job1", "comment", "dev1", .pending⟩,
         ⟨"t2", "job1", "comment", "dev2", .pending⟩]) :=
  C2_claim_at_most_once "job1" "dev1" _ _ 3 (by decide) (by decide)

/-! ## Comment pool and comment cycles (src/database.js)

Timestamps are JS Date.now() milliseconds, modelled as integers;
commentDelay is in seconds as at the call sites. -/

/-- A row of the job_comments table. -/
structure CommentEntry where
  id : Nat
  job_id : String
  comment : String
  used : Bool
  used_at : Option Int
  used_by_device : Option String
deriving DecidableEq, Repr

/-- A row of the job_comment_cycles table. -/
structure CycleRow where
  id : Nat
  job_id : String
  cycle_number : Nat
  devices_commented : List String
  total_devices : Nat
  last_comment_at : Int
  started_at : Int
  completed_at : Option Int
deriving DecidableEq, Repr

/-- The comment-related tables, rows in insertion order; the nextId
fields model the AUTOINCREMENT primary keys. -/
structure CommentDB where
  comments : List CommentEntry
  cycles : List CycleRow
  nextCommentId : Nat
  nextCycleId : Nat
deriving DecidableEq, Repr

/-- An empty database (AUTOINCREMENT starts at 1). -/
def emptyCommentDB : CommentDB :=
  { comments := [], cycles := [], nextCommentId := 1, nextCycleId := 1 }

/-- The open cycles of a job: WHERE job_id = ? AND completed_at IS NULL. -/
def openCycles (jobId : String) (db : CommentDB) : List CycleRow :=
  db.cycles.filter fun c => c.job_id == jobId && c.completed_at.isNone

/-- ORDER BY cycle_number DESC LIMIT 1 over the open cycles: the open
cycle with the greatest cycle number, if any. -/
def activeCycle (jobId : String) (db : CommentDB) : Option CycleRow :=
  (openCycles jobId db).foldl
    (fun acc c => match acc with
      | none => some c
      | some b => if b.cycle_number < c.cycle_number then some c else some b)
    none

/-- SELECT * FROM job_comments WHERE job_id = ? AND used = 0 ORDER BY id
ASC LIMIT 1: the unused pool entry with the least id, if any. -/
def nextUnusedComment (jobId : String) (db : CommentDB) : Option CommentEntry :=
  (db.comments.filter fun c => c.job_id == jobId && c.used == false).foldl
    (fun acc c => match acc with
      | none => some c
      | some b => if c.id < b.id then some c else some b)
    none

/-- Result of tryGetComment: status plus the optional comment text or
wait in seconds. -/
inductive CommentResult where
  | ok (comment : String)
  | already_commented
  | waiting_delay (waitSeconds : Int)
  | no_comments
deriving DecidableEq, Repr

/-- tryGetComment (src/database.js lines 416 to 485). The checks run in
source order: no open cycle, then the device-already-commented check,
then the delay check, then pool exhaustion; on success the chosen entry
is marked used and the cycle's last_comment_at is stamped. waitSeconds
is ceil of the remaining seconds, computed exactly on the millisecond
remainder. The deviceIndex parameter is unused, as in the source. -/
def tryGetComment (jobId deviceId : String) (deviceIndex : Nat)
    (commentDelay : Int) (now : Int) (db : CommentDB) :
    CommentResult × CommentDB :=
  match activeCycle jobId db with
  | none => (.no_comments, db)
  | some row =>
    if row.devices_commented.contains deviceId then
      (.already_commented, db)
    else
      let lastCommentAt := row.last_comment_at
      let timeSinceMs := now - lastCommentAt
      if 0 < lastCommentAt ∧ timeSinceMs < commentDelay * 1000 then
        (.waiting_delay ((commentDelay * 1000 - timeSinceMs + 999) / 1000), db)
      else
        match nextUnusedComment jobId db with
        | none => (.no_comments, db)
        | some entry =>
          let comments := db.comments.map fun c =>
            if c.id == entry.id then
              { c with used := true, used_at := some now,
                       used_by_device := some deviceId }
            else c
          let cycles := db.cycles.map fun c =>
            if c.id == row.id then { c with last_comment_at := now } else c
          (.ok entry.comment, { db with comments := comments, cycles := cycles })

/-- canDeviceComment (src/database.js lines 488 to 508): with an open
cycle, true iff the device is not yet in its consumed set; with no open
cycle, true unconditionally. -/
def canDeviceComment (jobId deviceId : String) (db : CommentDB) : Bool :=
  match activeCycle jobId db with
  | some row => !(row.devices_commented.contains deviceId)
  | none => true

/-- startNewCommentCycle (src/database.js lines 557 to 569): insert a
fresh cycle row with an empty consumed set and last_comment_at 0; pool
entries are not touched. -/
def startNewCommentCycle (jobId : String) (totalDevices cycleNumber : Nat)
    (now : Int) (db : CommentDB) : CommentDB :=
  { db with
      cycles := db.cycles ++
        [{ id := db.nextCycleId, job_id := jobId,
           cycle_number := cycleNumber, devices_commented := [],
           total_devices := totalDevices, last_comment_at := 0,
           started_at := now, completed_at := none }]
      nextCycleId := db.nextCycleId + 1 }

/-- markDeviceCommented (src/database.js lines 511 to 554): append the
device to the open cycle's consumed set (if absent); when the set
reaches the expected total, stamp completed_at and open cycle
number + 1 via startNewCommentCycle. -/
def markDeviceCommented (jobId deviceId : String) (now : Int)
    (db : CommentDB) : CommentDB :=
  match activeCycle jobId db with
  | none => db
  | some row =>
    let devicesCommented :=
      if row.devices_commented.contains deviceId then row.devices_commented
      else row.devices_commented ++ [deviceId]
    let db1 := { db with
      cycles := db.cycles.map fun c =>
        if c.id == row.id then { c with devices_commented := devicesCommented }
        else c }
    if row.total_devices ≤ devicesCommented.length then
      let db2 := { db1 with
        cycles := db1.cycles.map fun c =>
          if c.id == row.id then { c with completed_at := some now } else c }
      startNewCommentCycle jobId row.total_devices (row.cycle_number + 1) now db2
    else db1

/-- initCommentCycle (src/database.js lines 394 to 410): create cycle 1
only when the job has no cycle row at all. -/
def initCommentCycle (jobId : String) (totalDevices : Nat) (now : Int)
    (db : CommentDB) : CommentDB :=
  if (db.cycles.filter fun c => c.job_id == jobId).isEmpty then
    startNewCommentCycle jobId totalDevices 1 now db
  else db

/-- createCommentPool (src/database.js lines 635 to 665): insert the
texts in order with AUTOINCREMENT ids, then initCommentCycle when a
positive device total is given. -/
def createCommentPool (jobId : String) (commentTexts : List String)
    (totalDevices : Nat) (now : Int) (db : CommentDB) : CommentDB :=
  if commentTexts.isEmpty then db
  else
    let inserted := commentTexts.foldl
      (fun acc text =>
        { acc with
            comments := acc.comments ++
              [{ id := acc.nextCommentId, job_id := jobId, comment := text,
                 used := false, used_at := none, used_by_device := none }]
            nextCommentId := acc.nextCommentId + 1 })
      db
    if 0 < totalDevices then initCommentCycle jobId totalDevices now inserted
    else inserted

/-- One successful consumption round at the call sites (src/tasks and
src/unnamed worker loops): tryGetComment, and when it returns ok and the
comment is posted, markDeviceCommented. -/
def consumeAndMark (jobId deviceId : String) (deviceIndex : Nat)
    (commentDelay : Int) (tryAt markAt : Int) (db : CommentDB) :
    CommentResult × CommentDB :=
  match tryGetComment jobId deviceId deviceIndex commentDelay tryAt db with
  | (.ok text, db1) => (.ok text, markDeviceCommented jobId deviceId markAt db1)
  | other => other

/-! ### Lemmas about the comment cycle -/

/-- A job with no cycle rows has no open cycle. -/
theorem openCycles_eq_nil (jobId : String) (db : CommentDB)
    (h : db.cycles.filter (fun c => c.job_id == jobId) = []) :
    openCycles jobId db = [] := by
  rw [List.filter_eq_nil_iff] at h
  rw [openCycles, List.filter_eq_nil_iff]
  intro c hc
  simp [h c hc]

/-- With a single open cycle row, the active cycle is that row. -/
theorem activeCycle_single (jobId : String) (db : CommentDB) (row : CycleRow)
    (h : openCycles jobId db = [row]) :
    activeCycle jobId db = some row := by
  simp [activeCycle, h]

/-- Filtering the open cycles commutes with a row map that preserves
job_id and completed_at (the UPDATE statements touching only
last_comment_at or devices_commented). -/
theorem filter_open_map (jobId : String) (f : CycleRow → CycleRow)
    (l : List CycleRow)
    (hf : ∀ c, (f c).job_id = c.job_id ∧ (f c).completed_at = c.completed_at) :
    (l.map f).filter (fun c => c.job_id == jobId && c.completed_at.isNone) =
      (l.filter (fun c => c.job_id == jobId && c.completed_at.isNone)).map f := by
  induction l with
  | nil => rfl
  | cons x xs ih =>
      simp only [List.map_cons, List.filter_cons, (hf x).1, (hf x).2]
      by_cases hx : (x.job_id == jobId && x.completed_at.isNone) = true
      · simp [hx, ih]
      · simp [hx, ih]

/-! ### Claims C10 and C5 -/

/-- C10: for a job with no comment cycle row at all, the non-mutating
canDeviceComment allows every device, while tryGetComment finds no open
cycle and returns no_comments without touching the database — the two
operations disagree on this edge case. -/
theorem C10_no_cycle_divergence (jobId deviceId : String) (deviceIndex : Nat)
    (commentDelay now : Int) (db : CommentDB)
    (h : db.cycles.filter (fun c => c.job_id == jobId) = []) :
    canDeviceComment jobId deviceId db = true ∧
      tryGetComment jobId deviceId deviceIndex commentDelay now db =
        (.no_comments, db) := by
  have hopen := openCycles_eq_nil jobId db h
  have hactive : activeCycle jobId db = none := by simp [activeCycle, hopen]
  constructor
  · simp [canDeviceComment, hactive]
  · simp [tryGetComment, hactive]

/-- Witness for C10: a database holding one unused pool entry for the job
but no cycle row; the check says comment allowed, the consumer says
no_comments. -/
theorem C10_no_cycle_divergence_witness :
    canDeviceComment "j1" "d1"
        { comments := [⟨1, "j1", "hello", false, none, none⟩], cycles := [],
          nextCommentId := 2, nextCycleId := 1 } = true ∧
      tryGetComment "j1" "d1" 0 10 5000
          { comments := [⟨1, "j1", "hello", false, none, none⟩], cycles := [],
            nextCommentId := 2, nextCycleId := 1 } =
        (.no_comments,
          { comments := [⟨1, "j1", "hello", false, none, none⟩], cycles := [],
            nextCommentId := 2, nextCycleId := 1 }) :=
  C10_no_cycle_divergence "j1" "d1" 0 10 5000 _ (by decide)

/-- C5: in tryGetComment the already-consumed check precedes the delay
check, which precedes the exhaustion check, and the delay arithmetic is
the ceiling of the remaining seconds: (i) a device already in the open
cycle's consumed set gets already_commented at any time, any delay, even
with the pool exhausted; (ii) a not-yet-consumed device inside the delay
window gets waiting_delay with the ceiling remainder even with the pool
exhausted; (iii) with delaySeconds 10, a call 3 seconds after the
previous consumption waits 7 seconds; (iv) the same call 11 seconds
after succeeds and consumes the chosen entry. -/
theorem C5_check_order_and_delay (jobId deviceId : String)
    (deviceIndex : Nat) (db : CommentDB) (row : CycleRow)
    (hopen : openCycles jobId db = [row]) :
    (row.devices_commented.contains deviceId = true →
      ∀ (commentDelay now : Int),
        tryGetComment jobId deviceId deviceIndex commentDelay now db =
          (.already_commented, db)) ∧
    (row.devices_commented.contains deviceId = false →
      ∀ (commentDelay now : Int),
        0 < row.last_comment_at →
        now - row.last_comment_at < commentDelay * 1000 →
        tryGetComment jobId deviceId deviceIndex commentDelay now db =
          (.waiting_delay
            ((commentDelay * 1000 - (now - row.last_comment_at) + 999) / 1000),
           db)) ∧
    (row.devices_commented.contains deviceId = false →
      0 < row.last_comment_at →
      tryGetComment jobId deviceId deviceIndex 10
          (row.last_comment_at + 3000) db = (.waiting_delay 7, db)) ∧
    (row.devices_commented.contains deviceId = false →
      ∀ entry : CommentEntry,
        nextUnusedComment jobId db = some entry →
        (tryGetComment jobId deviceId deviceIndex 10
            (row.last_comment_at + 11000) db).1 = .ok entry.comment) := by
  have hactive := activeCycle_single jobId db row hopen
  refine ⟨?_, ?_, ?_, ?_⟩
  · intro hin commentDelay now
    have hmem : deviceId ∈ row.devices_commented := by simpa using hin
    simp [tryGetComment, hactive, hmem]
  · intro hout commentDelay now hpos hwin
    rw [tryGetComment, hactive]
    simp only [hout, Bool.false_eq_true, if_false]
    rw [if_pos ⟨hpos, hwin⟩]
  · intro hout hpos
    rw [tryGetComment, hactive]
    simp only [hout, Bool.false_eq_true, if_false]
    rw [if_pos ⟨hpos, by omega⟩]
    norm_num
  · intro hout entry hentry
    rw [tryGetComment, hactive]
    simp only [hout, Bool.false_eq_true, if_false]
    rw [if_neg (by omega), hentry]

/-- A concrete database with one open cycle (last consumption at
10000 ms, device d1 already consumed) and one unused pool entry. -/
def exampleDelayDB : CommentDB :=
  { comments := [⟨1, "j", "hi", false, none, none⟩],
    cycles := [⟨1, "j", 1, ["d1"], 3, 10000, 0, none⟩],
    nextCommentId := 2, nextCycleId := 2 }

/-- Witness for C5 on a concrete database: d1 gets already_commented, d2
at 3 seconds after the last consumption gets waiting_delay 7, and d2 at
11 seconds gets the entry. -/
theorem C5_check_order_and_delay_witness :
    tryGetComment "j" "d1" 0 10 10500 exampleDelayDB =
      (.already_commented, exampleDelayDB) ∧
    tryGetComment "j" "d2" 0 10 (10000 + 3000) exampleDelayDB =
      (.waiting_delay 7, exampleDelayDB) ∧
    (tryGetComment "j" "d2" 0 10 (10000 + 11000) exampleDelayDB).1 =
      .ok "hi" := by
  refine ⟨?_, ?_, ?_⟩
  · exact (C5_check_order_and_delay "j" "d1" 0 exampleDelayDB
      ⟨1, "j", 1, ["d1"], 3, 10000, 0, none⟩ (by decide)).1
      (by decide) 10 10500
  · exact (C5_check_order_and_delay "j" "d2" 0 exampleDelayDB
      ⟨1, "j", 1, ["d1"], 3, 10000, 0, none⟩ (by decide)).2.2.1
      (by decide) (by decide)
  · exact (C5_check_order_and_delay "j" "d2" 0 exampleDelayDB
      ⟨1, "j", 1, ["d1"], 3, 10000, 0, none⟩ (by decide)).2.2.2
      (by decide) ⟨1, "j", "hi", false, none, none⟩ (by decide)

/-! ### Claim C4 -/

/-- C4: within one open cycle (the consumed set stays below the device
total), a device that successfully consumes — tryGetComment returns ok
and the call site then records it via markDeviceCommented — cannot
consume again: every later tryGetComment by that device, at any time and
any delay, returns already_commented and leaves the database unchanged,
even while unused pool entries remain. -/
theorem C4_no_double_consumption (jobId deviceId : String) (i : Nat)
    (delay t m : Int) (db : CommentDB) (row : CycleRow)
    (entry : CommentEntry)
    (hopen : openCycles jobId db = [row])
    (hdev : row.devices_commented.contains deviceId = false)
    (hdelay : ¬(0 < row.last_comment_at ∧
      t - row.last_comment_at < delay * 1000))
    (hpool : nextUnusedComment jobId db = some entry)
    (hstay : row.devices_commented.length + 1 < row.total_devices) :
    ∃ db2 : CommentDB,
      consumeAndMark jobId deviceId i delay t m db =
        (.ok entry.comment, db2) ∧
      ∀ (i2 : Nat) (delay2 t2 : Int),
        tryGetComment jobId deviceId i2 delay2 t2 db2 =
          (.already_commented, db2) := by
  have hactive := activeCycle_single jobId db row hopen
  -- the consuming call
  have htry : tryGetComment jobId deviceId i delay t db =
      (.ok entry.comment,
        { db with
            comments := db.comments.map fun c =>
              if c.id == entry.id then
                { c with used := true, used_at := some t,
                         used_by_device := some deviceId }
              else c
            cycles := db.cycles.map fun c =>
              if c.id == row.id then { c with last_comment_at := t }
              else c }) := by
    rw [tryGetComment, hactive]
    simp only [hdev, Bool.false_eq_true, if_false]
    rw [if_neg hdelay, hpool]
  have hlastpres : ∀ c : CycleRow,
      ((if c.id == row.id then { c with last_comment_at := t } else c) :
        CycleRow).job_id = c.job_id ∧
      ((if c.id == row.id then { c with last_comment_at := t } else c) :
        CycleRow).completed_at = c.completed_at := by
    intro c
    by_cases h : (c.id == row.id) = true <;> simp [h]
  have hopen1 : openCycles jobId
      { db with
          comments := db.comments.map fun c =>
            if c.id == entry.id then
              { c with used := true, used_at := some t,
                       used_by_device := some deviceId }
            else c
          cycles := db.cycles.map fun c =>
            if c.id == row.id then { c with last_comment_at := t }
            else c } = [{ row with last_comment_at := t }] := by
    rw [openCycles]
    rw [filter_open_map jobId _ db.cycles hlastpres]
    rw [show db.cycles.filter
        (fun c => c.job_id == jobId && c.completed_at.isNone) =
        [row] from hopen]
    simp
  have hactive1 := activeCycle_single jobId _ _ hopen1
  -- recording the consumption keeps the cycle open and adds the device
  have hmark : markDeviceCommented jobId deviceId m
      { db with
          comments := db.comments.map fun c =>
            if c.id == entry.id then
              { c with used := true, used_at := some t,
                       used_by_device := some deviceId }
            else c
          cycles := db.cycles.map fun c =>
            if c.id == row.id then { c with last_comment_at := t }
            else c } =
      { db with
          comments := db.comments.map fun c =>
            if c.id == entry.id then
              { c with used := true, used_at := some t,
                       used_by_device := some deviceId }
            else c
          cycles := (db.cycles.map fun c =>
            if c.id == row.id then { c with last_comment_at := t }
            else c).map fun c =>
              if c.id == row.id then
                { c with devices_commented :=
                    row.devices_commented ++ [deviceId] }
              else c } := by
    rw [markDeviceCommented, hactive1]
    simp only [hdev, Bool.false_eq_true, if_false]
    rw [if_neg (by simp; omega)]
  have hdevpres : ∀ c : CycleRow,
      ((if c.id == row.id then
          { c with devices_commented := row.devices_commented ++ [deviceId] }
        else c) : CycleRow).job_id = c.job_id ∧
      ((if c.id == row.id then
          { c with devices_commented := row.devices_commented ++ [deviceId] }
        else c) : CycleRow).completed_at = c.completed_at := by
    intro c
    by_cases h : (c.id == row.id) = true <;> simp [h]
  have hopen2 : openCycles jobId
      { db with
          comments := db.comments.map fun c =>
            if c.id == entry.id then
              { c with used := true, used_at := some t,
                       used_by_device := some deviceId }
            else c
          cycles := (db.cycles.map fun c =>
            if c.id == row.id then { c with last_comment_at := t }
            else c).map fun c =>
              if c.id == row.id then
                { c with devices_commented :=
                    row.devices_commented ++ [deviceId] }
              else c } =
      [{ row with last_comment_at := t,
                  devices_commented := row.devices_commented ++ [deviceId] }] := by
    rw [openCycles]
    rw [filter_open_map jobId _ _ hdevpres]
    rw [filter_open_map jobId _ db.cycles hlastpres]
    rw [show db.cycles.filter
        (fun c => c.job_id == jobId && c.completed_at.isNone) =
        [row] from hopen]
    simp
  have hactive2 := activeCycle_single jobId _ _ hopen2
  refine ⟨{ db with
      comments := db.comments.map fun c =>
        if c.id == entry.id then
          { c with used := true, used_at := some t,
                   used_by_device := some deviceId }
        else c
      cycles := (db.cycles.map fun c =>
        if c.id == row.id then { c with last_comment_at := t }
        else c).map fun c =>
          if c.id == row.id then
            { c with devices_commented :=
                row.devices_commented ++ [deviceId] }
          else c }, ?_, ?_⟩
  · simp only [consumeAndMark, htry]
    rw [hmark]
  · intro i2 delay2 t2
    rw [tryGetComment, hactive2]
    simp

/-- Witness for C4: device d1 consumes entry 1 in a fresh 3-device cycle
and is recorded; afterwards the same device always gets
already_commented (entry 2 still unused). -/
theorem C4_no_double_consumption_witness :
    ∃ db2 : CommentDB,
      consumeAndMark "j" "d1" 0 10 5000 6000
          { comments := [⟨1, "j", "one", false, none, none⟩,
                         ⟨2, "j", "two", false, none, none⟩],
            cycles := [⟨1, "j", 1, [], 3, 0, 0, none⟩],
            nextCommentId := 3, nextCycleId := 2 } =
        (.ok "one", db2) ∧
      ∀ (i2 : Nat) (delay2 t2 : Int),
        tryGetComment "j" "d1" i2 delay2 t2 db2 =
          (.already_commented, db2) :=
  C4_no_double_consumption "j" "d1" 0 10 5000 6000
    { comments := [⟨1, "j", "one", false, none, none⟩,
                   ⟨2, "j", "two", false, none, none⟩],
      cycles := [⟨1, "j", 1, [], 3, 0, 0, none⟩],
      nextCommentId := 3, nextCycleId := 2 }
    ⟨1, "j", 1, [], 3, 0, 0, none⟩ ⟨1, "j", "one", false, none, none⟩
    (by decide) (by decide) (by decide) (by decide) (by decide)

/-! ### Claim C3 -/

/-- C3: starting from a pool of four entries and a 3-device cycle, three
distinct devices each consume (tryGetComment returns ok with entries 1,
2, 3 in creation order) and are recorded (markDeviceCommented); the
third record seals cycle 1 (completed_at set) and opens cycle 2 with an
empty consumed set; exactly one cycle of the job remains open; used
flags are never reset, and the next successful consumption — by any
device, at any time — returns the 4th pool entry, not entry 1. -/
theorem C3_cycle_rotation (jobId d1 d2 d3 c1 c2 c3 c4 : String)
    (delay t0 t1 t2 t3 m1 m2 m3 : Int) (i1 i2 i3 : Nat)
    (hd12 : d1 ≠ d2) (hd13 : d1 ≠ d3) (hd23 : d2 ≠ d3)
    (hgap2 : delay * 1000 ≤ t2 - t1) (hgap3 : delay * 1000 ≤ t3 - t2) :
    (consumeAndMark jobId d1 i1 delay t1 m1
        (createCommentPool jobId [c1, c2, c3, c4] 3 t0 emptyCommentDB)).1 =
      .ok c1 ∧
    (consumeAndMark jobId d2 i2 delay t2 m2
        (consumeAndMark jobId d1 i1 delay t1 m1
          (createCommentPool jobId [c1, c2, c3, c4] 3 t0
            emptyCommentDB)).2).1 = .ok c2 ∧
    consumeAndMark jobId d3 i3 delay t3 m3
        (consumeAndMark jobId d2 i2 delay t2 m2
          (consumeAndMark jobId d1 i1 delay t1 m1
            (createCommentPool jobId [c1, c2, c3, c4] 3 t0
              emptyCommentDB)).2).2 =
      (.ok c3,
        { comments :=
            [⟨1, jobId, c1, true, some t1, some d1⟩,
             ⟨2, jobId, c2, true, some t2, some d2⟩,
             ⟨3, jobId, c3, true, some t3, some d3⟩,
             ⟨4, jobId, c4, false, none, none⟩],
          cycles :=
            [⟨1, jobId, 1, [d1, d2, d3], 3, t3, t0, some m3⟩,
             ⟨2, jobId, 2, [], 3, 0, m3, none⟩],
          nextCommentId := 5, nextCycleId := 3 }) ∧
    openCycles jobId
        { comments :=
            [⟨1, jobId, c1, true, some t1, some d1⟩,
             ⟨2, jobId, c2, true, some t2, some d2⟩,
             ⟨3, jobId, c3, true, some t3, some d3⟩,
             ⟨4, jobId, c4, false, none, none⟩],
          cycles :=
            [⟨1, jobId, 1, [d1, d2, d3], 3, t3, t0, some m3⟩,
             ⟨2, jobId, 2, [], 3, 0, m3, none⟩],
          nextCommentId := 5, nextCycleId := 3 } =
      [⟨2, jobId, 2, [], 3, 0, m3, none⟩] ∧
    ∀ (d : String) (i4 : Nat) (t4 : Int),
      (tryGetComment jobId d i4 delay t4
          { comments :=
              [⟨1, jobId, c1, true, some t1, some d1⟩,
               ⟨2, jobId, c2, true, some t2, some d2⟩,
               ⟨3, jobId, c3, true, some t3, some d3⟩,
               ⟨4, jobId, c4, false, none, none⟩],
            cycles :=
              [⟨1, jobId, 1, [d1, d2, d3], 3, t3, t0, some m3⟩,
               ⟨2, jobId, 2, [], 3, 0, m3, none⟩],
            nextCommentId := 5, nextCycleId := 3 }).1 = .ok c4 := by
  have h21 : d2 ≠ d1 := Ne.symm hd12
  have h31 : d3 ≠ d1 := Ne.symm hd13
  have h32 : d3 ≠ d2 := Ne.symm hd23
  have hc2 : ¬(0 < t1 ∧ t2 - t1 < delay * 1000) := by omega
  have hc3 : ¬(0 < t2 ∧ t3 - t2 < delay * 1000) := by omega
  refine ⟨?_, ?_, ?_, ?_, ?_⟩
  · simp [consumeAndMark, tryGetComment, markDeviceCommented,
      createCommentPool, initCommentCycle, startNewCommentCycle,
      emptyCommentDB, activeCycle, openCycles, nextUnusedComment]
  · simp [consumeAndMark, tryGetComment, markDeviceCommented,
      createCommentPool, initCommentCycle, startNewCommentCycle,
      emptyCommentDB, activeCycle, openCycles, nextUnusedComment,
      h21, hc2]
  · simp [consumeAndMark, tryGetComment, markDeviceCommented,
      createCommentPool, initCommentCycle, startNewCommentCycle,
      emptyCommentDB, activeCycle, openCycles, nextUnusedComment,
      h21, h31, h32, hc2, hc3]
  · simp [openCycles]
  · intro d i4 t4
    simp [tryGetComment, activeCycle, openCycles, nextUnusedComment]

/-- Witness for C3 with concrete devices a, b, c, delay 10 seconds and
consumptions at 1000, 12000, 23000 ms (gaps of 11 seconds). -/
theorem C3_cycle_rotation_witness :
    (consumeAndMark "j" "a" 0 10 1000 1500
        (createCommentPool "j" ["c1", "c2", "c3", "c4"] 3 0
          emptyCommentDB)).1 = .ok "c1" ∧
    (consumeAndMark "j" "b" 0 10 12000 12500
        (consumeAndMark "j" "a" 0 10 1000 1500
          (createCommentPool "j" ["c1", "c2", "c3", "c4"] 3 0
            emptyCommentDB)).2).1 = .ok "c2" ∧
    consumeAndMark "j" "c" 0 10 23000 23500
        (consumeAndMark "j" "b" 0 10 12000 12500
          (consumeAndMark "j" "a" 0 10 1000 1500
            (createCommentPool "j" ["c1", "c2", "c3", "c4"] 3 0
              emptyCommentDB)).2).2 =
      (.ok "c3",
        { comments :=
            [⟨1, "j", "c1", true, some 1000, some "a"⟩,
             ⟨2, "j", "c2", true, some 12000, some "b"⟩,
             ⟨3, "j", "c3", true, some 23000, some "c"⟩,
             ⟨4, "j", "c4", false, none, none⟩],
          cycles :=
            [⟨1, "j", 1, ["a", "b", "c"], 3, 23000, 0, some 23500⟩,
             ⟨2, "j", 2, [], 3, 0, 23500, none⟩],
          nextCommentId := 5, nextCycleId := 3 }) ∧
    openCycles "j"
        { comments :=
            [⟨1, "j", "c1", true, some 1000, some "a"⟩,
             ⟨2, "j", "c2", true, some 12000, some "b"⟩,
             ⟨3, "j", "c3", true, some 23000, some "c"⟩,
             ⟨4, "j", "c4", false, none, none⟩],
          cycles :=
            [⟨1, "j", 1, ["a", "b", "c"], 3, 23000, 0, some 23500⟩,
             ⟨2, "j", 2, [], 3, 0, 23500, none⟩],
          nextCommentId := 5, nextCycleId := 3 } =
      [⟨2, "j", 2, [], 3, 0, 23500, none⟩] ∧
    ∀ (d : String) (i4 : Nat) (t4 : Int),
      (tryGetComment "j" d i4 10 t4
          { comments :=
              [⟨1, "j", "c1", true, some 1000, some "a"⟩,
               ⟨2, "j", "c2", true, some 12000, some "b"⟩,
               ⟨3, "j", "c3", true, some 23000, some "c"⟩,
               ⟨4, "j", "c4", false, none, none⟩],
            cycles :=
              [⟨1, "j", 1, ["a", "b", "c"], 3, 23000, 0, some 23500⟩,
               ⟨2, "j", 2, [], 3, 0, 23500, none⟩],
            nextCommentId := 5, nextCycleId := 3 }).1 = .ok "c4" :=
  C3_cycle_rotation "j" "a" "b" "c" "c1" "c2" "c3" "c4"
    10 0 1000 12000 23000 1500 12500 23500 0 0 0
    (by decide) (by decide) (by decide) (by decide) (by decide)

/-! ## Mirror gesture controller (MirrorController.js, src/unnamed/part_002)

Normalized coordinates are rationals; Math.round r is the floor of
r + 1/2; the WxH metadata strings arriving at startMirror are modelled
by their parsed result. -/

/-- A device screen resolution in pixels. -/
structure Resolution where
  width : Nat
  height : Nat
deriving DecidableEq, Repr

/-- One entry of the allDeviceInfo argument of startMirror: a device id
and its resolution metadata when known. -/
structure DeviceInfo where
  device : String
  resolution : Option Resolution
deriving DecidableEq, Repr

/-- The controller state: master device, the device list gestures fan
out over, the per-device resolution map and the fallback resolution. -/
structure MirrorState where
  masterDevice : Option String
  allDevices : List String
  deviceResolutions : List (String × Resolution)
  defaultResolution : Resolution
  isActive : Bool
deriving DecidableEq, Repr

/-- The constructor state: empty session, fallback 1080 by 2340. -/
def initialMirrorState : MirrorState :=
  { masterDevice := none, allDevices := [],
    deviceResolutions := [], defaultResolution := ⟨1080, 2340⟩,
    isActive := false }

/-- Map.set semantics: later insertions shadow earlier ones, so new
entries are consed in front and lookup takes the first hit. -/
def mapSet (m : List (String × Resolution)) (k : String) (v : Resolution) :
    List (String × Resolution) :=
  (k, v) :: m

/-- startMirror (part_002 lines 27 to 62): record master and the full
device list, override the fallback resolution when one is given, and
build the per-device resolution map from the known metadata. -/
def startMirror (masterDeviceId : String) (allDeviceIds : List String)
    (resolution : Option Resolution) (allDeviceInfo : List DeviceInfo)
    (st : MirrorState) : MirrorState :=
  { masterDevice := some masterDeviceId
    allDevices := allDeviceIds
    deviceResolutions := allDeviceInfo.foldl
      (fun acc dev => match dev.resolution with
        | some r => mapSet acc dev.device r
        | none => acc) []
    defaultResolution := resolution.getD st.defaultResolution
    isActive := true }

/-- The operator console's startMirrorMode (part_000 lines 1099 to 1128):
the master is the first selected device and the whole selection —
master included — is passed as the device list. -/
def startMirrorMode (selectedDevices : List String)
    (allDeviceInfo : List DeviceInfo) (resolution : Option Resolution)
    (st : MirrorState) : Option MirrorState :=
  match selectedDevices with
  | [] => none
  | master :: rest =>
      some (startMirror master (master :: rest) resolution allDeviceInfo st)

/-- The per-device resolution (part_002 lines 81 to 83): the map entry
when present, the fallback otherwise. -/
def _getRes (st : MirrorState) (deviceId : String) : Resolution :=
  match st.deviceResolutions.lookup deviceId with
  | some r => r
  | none => st.defaultResolution

/-- Math.max(0, Math.min(1, v)): clamp into the unit interval. -/
def clamp01 (v : ℚ) : ℚ := max 0 (min 1 v)

/-- Math.round: floor of v + 1/2 (round half toward positive). -/
def jsRound (v : ℚ) : ℤ := ⌊v + 1 / 2⌋

/-- The pixel coordinates of the input tap command sent to one device
(part_002 lines 102 to 103): the clamped normalized coordinates scaled
by that device's own resolution. -/
def tapCommand (st : MirrorState) (normX normY : ℚ) (deviceId : String) :
    ℤ × ℤ :=
  let r := _getRes st deviceId
  (jsRound (clamp01 normX * r.width), jsRound (clamp01 normY * r.height))

/-- sendTap (part_002 lines 95 to 115): when active, issue one input tap
command per device of the session, each scaled per device. -/
def sendTap (st : MirrorState) (normX normY : ℚ) :
    Option (List (String × ℤ × ℤ)) :=
  if st.isActive then
    some (st.allDevices.map fun d => (d, tapCommand st normX normY d))
  else none

/-- The pixel coordinates of the input swipe command sent to one device
(part_002 lines 126 to 129). -/
def swipeCommand (st : MirrorState) (nx1 ny1 nx2 ny2 : ℚ)
    (deviceId : String) : ℤ × ℤ × ℤ × ℤ :=
  let r := _getRes st deviceId
  (jsRound (clamp01 nx1 * r.width), jsRound (clamp01 ny1 * r.height),
   jsRound (clamp01 nx2 * r.width), jsRound (clamp01 ny2 * r.height))

/-- sendSwipe (part_002 lines 117 to 138): when active, issue one input
swipe command per device of the session. -/
def sendSwipe (st : MirrorState) (nx1 ny1 nx2 ny2 : ℚ) (duration : ℤ) :
    Option (List (String × (ℤ × ℤ × ℤ × ℤ) × ℤ)) :=
  if st.isActive then
    some (st.allDevices.map fun d =>
      (d, swipeCommand st nx1 ny1 nx2 ny2 d, duration))
  else none

/-- sendKeyEvent (part_002 lines 144 to 156): one input keyevent command
per device of the session. -/
def sendKeyEvent (st : MirrorState) (keycode : ℤ) :
    Option (List (String × ℤ)) :=
  if st.isActive then some (st.allDevices.map fun d => (d, keycode))
  else none

/-- The characters the sendText escaping removes. -/
def removedChars : List Char :=
  ['&', '|', ';', '<', '>', Char.ofNat 96, '$', '"', '\'', '\\']

/-- The sendText escaping (part_002 line 160): spaces become the two
characters percent s, then shell metacharacters are dropped. -/
def escapeText (text : String) : String :=
  let spaced := text.data.foldr
    (fun c acc => if c = ' ' then '%' :: 's' :: acc else c :: acc) []
  String.mk (spaced.filter fun c => !(removedChars.contains c))

/-- sendText (part_002 lines 158 to 170): one input text command per
device of the session, all with the same escaped text. -/
def sendText (st : MirrorState) (text : String) :
    Option (List (String × String)) :=
  if st.isActive then
    some (st.allDevices.map fun d => (d, escapeText text))
  else none

/-! ### Lemmas about gesture scaling -/

/-- A clamped coordinate scaled to a device axis and rounded lands
inside [0, axis length]. -/
theorem jsRound_clamp_mem (v : ℚ) (w : ℕ) :
    0 ≤ jsRound (clamp01 v * w) ∧ jsRound (clamp01 v * w) ≤ (w : ℤ) := by
  have h0 : 0 ≤ clamp01 v := le_max_left 0 _
  have h1 : clamp01 v ≤ 1 := max_le (by norm_num) (min_le_left 1 v)
  have hw0 : (0 : ℚ) ≤ (w : ℚ) := by positivity
  have hcw0 : 0 ≤ clamp01 v * w := mul_nonneg h0 hw0
  have hcw1 : clamp01 v * w ≤ w := mul_le_of_le_one_left hw0 h1
  have hfw : ⌊(w : ℚ) + 1 / 2⌋ = (w : ℤ) := by
    rw [show ((w : ℚ) + 1 / 2) = ((w : ℤ) : ℚ) + 1 / 2 by push_cast; ring]
    rw [Int.floor_int_add]
    norm_num
  constructor
  · exact Int.le_floor.mpr (by push_cast; linarith)
  · calc jsRound (clamp01 v * w) ≤ ⌊(w : ℚ) + 1 / 2⌋ :=
          Int.floor_le_floor (by linarith)
      _ = (w : ℤ) := hfw

/-! ### Claims C6, C9 and C7 -/

/-- C6: each device's tap command is round(normX times its own width),
round(normY times its own height), taken from the per-device resolution
map or the fallback when unknown, with no dependence on the reference
device's resolution; a tap at (1/2, 1/2) for a follower with resolution
1440 by 3168 lands at pixel (720, 1584); and an active session fans such
a command out to every device of the session, each scaled per device. -/
theorem C6_mirror_scaling (st : MirrorState) (normX normY : ℚ)
    (d : String) :
    (∀ r : Resolution, st.deviceResolutions.lookup d = some r →
      tapCommand st normX normY d =
        (jsRound (clamp01 normX * r.width),
         jsRound (clamp01 normY * r.height))) ∧
    (st.deviceResolutions.lookup d = none →
      tapCommand st normX normY d =
        (jsRound (clamp01 normX * st.defaultResolution.width),
         jsRound (clamp01 normY * st.defaultResolution.height))) ∧
    (st.deviceResolutions.lookup d = some ⟨1440, 3168⟩ →
      tapCommand st (1 / 2) (1 / 2) d = (720, 1584)) ∧
    (st.isActive = true →
      sendTap st normX normY =
        some (st.allDevices.map fun d2 => (d2, tapCommand st normX normY d2))) := by
  refine ⟨?_, ?_, ?_, ?_⟩
  · intro r h
    simp [tapCommand, _getRes, h]
  · intro h
    simp [tapCommand, _getRes, h]
  · intro h
    simp only [tapCommand, _getRes, h]
    norm_num [jsRound, clamp01]
  · intro h
    simp [sendTap, h]

/-- Witness for C6: a session whose map holds the follower resolution
1440 by 3168; the tap at (1/2, 1/2) lands at (720, 1584). -/
theorem C6_mirror_scaling_witness :
    tapCommand
        { masterDevice := some "m", allDevices := ["m", "f"],
          deviceResolutions := [("f", ⟨1440, 3168⟩), ("m", ⟨1080, 2400⟩)],
          defaultResolution := ⟨1080, 2340⟩, isActive := true }
        (1 / 2) (1 / 2) "f" = (720, 1584) :=
  (C6_mirror_scaling
      { masterDevice := some "m", allDevices := ["m", "f"],
        deviceResolutions := [("f", ⟨1440, 3168⟩), ("m", ⟨1080, 2400⟩)],
        defaultResolution := ⟨1080, 2340⟩, isActive := true }
      (1 / 2) (1 / 2) "f").2.2.1 (by decide)

/-- C9: sendTap and sendSwipe clamp the normalized input into [0, 1]
before scaling, so every issued pixel coordinate lies within
[0, width] times [0, height] of the target device's own resolution,
for every input, in range or not. -/
theorem C9_clamped_bounds (st : MirrorState) (nx ny nx1 ny1 nx2 ny2 : ℚ)
    (d : String) :
    (0 ≤ (tapCommand st nx ny d).1 ∧
      (tapCommand st nx ny d).1 ≤ ((_getRes st d).width : ℤ)) ∧
    (0 ≤ (tapCommand st nx ny d).2 ∧
      (tapCommand st nx ny d).2 ≤ ((_getRes st d).height : ℤ)) ∧
    (0 ≤ (swipeCommand st nx1 ny1 nx2 ny2 d).1 ∧
      (swipeCommand st nx1 ny1 nx2 ny2 d).1 ≤ ((_getRes st d).width : ℤ)) ∧
    (0 ≤ (swipeCommand st nx1 ny1 nx2 ny2 d).2.1 ∧
      (swipeCommand st nx1 ny1 nx2 ny2 d).2.1 ≤ ((_getRes st d).height : ℤ)) ∧
    (0 ≤ (swipeCommand st nx1 ny1 nx2 ny2 d).2.2.1 ∧
      (swipeCommand st nx1 ny1 nx2 ny2 d).2.2.1 ≤ ((_getRes st d).width : ℤ)) ∧
    (0 ≤ (swipeCommand st nx1 ny1 nx2 ny2 d).2.2.2 ∧
      (swipeCommand st nx1 ny1 nx2 ny2 d).2.2.2 ≤ ((_getRes st d).height : ℤ)) := by
  refine ⟨?_, ?_, ?_, ?_, ?_, ?_⟩ <;>
    first
      | exact jsRound_clamp_mem nx (_getRes st d).width
      | exact jsRound_clamp_mem ny (_getRes st d).height
      | exact jsRound_clamp_mem nx1 (_getRes st d).width
      | exact jsRound_clamp_mem ny1 (_getRes st d).height
      | exact jsRound_clamp_mem nx2 (_getRes st d).width
      | exact jsRound_clamp_mem ny2 (_getRes st d).height

/-- C7, counterexample: a mirror session started from the operator
console with selection [m, f] has reference device m, and an active
sendTap issues a device command to m itself — the reference device is a
gesture target, not visual-only. -/
theorem C7_counterexample :
    ((startMirrorMode ["m", "f"] [] none initialMirrorState).getD
        initialMirrorState).masterDevice = some "m" ∧
    "m" ∈ ((sendTap ((startMirrorMode ["m", "f"] [] none
        initialMirrorState).getD initialMirrorState)
          (1 / 2) (1 / 2)).getD []).map Prod.fst := by
  decide

/-- C7, amended: every gesture operation of an active session issues its
device commands to exactly the session's device list, and the session
the operator console starts places the reference device first in that
list — gestures reach the reference device too; the reference view is
read-only only for its scrcpy window. -/
theorem C7_gesture_targets (st : MirrorState) (nx ny nx1 ny1 nx2 ny2 : ℚ)
    (duration keycode : ℤ) (text : String)
    (master : String) (rest : List String)
    (info : List DeviceInfo) (res : Option Resolution) (st0 : MirrorState)
    (h : st.isActive = true) :
    (sendTap st nx ny).map (List.map Prod.fst) = some st.allDevices ∧
    (sendSwipe st nx1 ny1 nx2 ny2 duration).map (List.map Prod.fst) =
      some st.allDevices ∧
    (sendKeyEvent st keycode).map (List.map Prod.fst) = some st.allDevices ∧
    (sendText st text).map (List.map Prod.fst) = some st.allDevices ∧
    (startMirrorMode (master :: rest) info res st0).map
        MirrorState.allDevices = some (master :: rest) ∧
    (startMirrorMode (master :: rest) info res st0).map
        MirrorState.masterDevice = some (some master) := by
  refine ⟨?_, ?_, ?_, ?_, ?_, ?_⟩
  · simp [sendTap, h, List.map_map, Function.comp_def]
  · simp [sendSwipe, h, List.map_map, Function.comp_def]
  · simp [sendKeyEvent, h, List.map_map, Function.comp_def]
  · simp [sendText, h, List.map_map, Function.comp_def]
  · simp [startMirrorMode, startMirror]
  · simp [startMirrorMode, startMirror]

/-- Witness for C7's amended theorem on a concrete active session. -/
theorem C7_gesture_targets_witness :
    (sendTap
        { masterDevice := some "m", allDevices := ["m", "f"],
          deviceResolutions := [], defaultResolution := ⟨1080, 2340⟩,
          isActive := true } 0 0).map (List.map Prod.fst) =
      some ["m", "f"] ∧
    (sendSwipe
        { masterDevice := some "m", allDevices := ["m", "f"],
          deviceResolutions := [], defaultResolution := ⟨1080, 2340⟩,
          isActive := true } 0 0 1 1 300).map (List.map Prod.fst) =
      some ["m", "f"] ∧
    (sendKeyEvent
        { masterDevice := some "m", allDevices := ["m", "f"],
          deviceResolutions := [], defaultResolution := ⟨1080, 2340⟩,
          isActive := true } 4).map (List.map Prod.fst) =
      some ["m", "f"] ∧
    (sendText
        { masterDevice := some "m", allDevices := ["m", "f"],
          deviceResolutions := [], defaultResolution := ⟨1080, 2340⟩,
          isActive := true } "hi").map (List.map Prod.fst) =
      some ["m", "f"] ∧
    (startMirrorMode ["m", "f"] [] none initialMirrorState).map
        MirrorState.allDevices = some ["m", "f"] ∧
    (startMirrorMode ["m", "f"] [] none initialMirrorState).map
        MirrorState.masterDevice = some (some "m") :=
  C7_gesture_targets
    { masterDevice := some "m", allDevices := ["m", "f"],
      deviceResolutions := [], defaultResolution := ⟨1080, 2340⟩,
      isActive := true } 0 0 0 0 1 1 300 4 "hi" "m" ["f"] [] none
    initialMirrorState (by decide)

/-! ## Streaming capture loop (src/ScrcpyStreamer.js) -/

/-- The per-device stream record fields the capture loop reads and
writes. -/
structure StreamState where
  active : Bool
  consecutiveFailures : Nat
  totalFrames : Nat
deriving DecidableEq, Repr

/-- What one capture attempt can yield: a raw frame of some byte length,
or a thrown error, offline-flagged when its message marks the device as
disconnected. -/
inductive CaptureOutcome where
  | frame (length : Nat)
  | err (offline : Bool)
deriving DecidableEq, Repr

/-- One iteration of the while body of _captureLoop (ScrcpyStreamer.js
lines 163 to 283): at 5 or more consecutive failures, sleep 3000 ms and
reset the counter without capturing; otherwise a too-short frame
increments the counter and sleeps 300 ms, a good frame resets the
counter and counts it then sleeps the breath delay, an offline error
increments and sleeps 8000 ms, any other error increments and sleeps
min 800 (150 times the incremented counter). Returns the new stream
state and the iteration's sleep in milliseconds. -/
def captureIterate (breathDelay : Nat) (s : StreamState)
    (outcome : CaptureOutcome) : StreamState × Nat :=
  if 5 ≤ s.consecutiveFailures then
    ({ s with consecutiveFailures := 0 }, 3000)
  else
    match outcome with
    | .frame length =>
        if length < 100 then
          ({ s with consecutiveFailures := s.consecutiveFailures + 1 }, 300)
        else
          ({ s with consecutiveFailures := 0,
                    totalFrames := s.totalFrames + 1 }, breathDelay)
    | .err offline =>
        if offline then
          ({ s with consecutiveFailures := s.consecutiveFailures + 1 }, 8000)
        else
          ({ s with consecutiveFailures := s.consecutiveFailures + 1 },
            min 800 (150 * (s.consecutiveFailures + 1)))

/-- The while loop of _captureLoop over a finite trace of capture
outcomes: the guard is stream.active and the engine's isRunning; the
result counts how many iterations actually ran before the loop stopped. -/
def captureLoopRun (breathDelay : Nat) (isRunning : Bool) :
    StreamState → List CaptureOutcome → StreamState × Nat
  | s, [] => (s, 0)
  | s, o :: os =>
      if s.active && isRunning then
        let rest := captureLoopRun breathDelay isRunning
          (captureIterate breathDelay s o).1 os
        (rest.1, rest.2 + 1)
      else (s, 0)

/-- An iteration of the capture loop body never changes the stream's
active flag. -/
theorem captureIterate_active (breathDelay : Nat) (s : StreamState)
    (o : CaptureOutcome) :
    (captureIterate breathDelay s o).1.active = s.active := by
  rw [captureIterate.eq_def]
  by_cases h5 : 5 ≤ s.consecutiveFailures
  · simp [h5]
  · cases o with
    | frame length =>
        by_cases hl : length < 100 <;> simp [h5, hl]
    | err offline =>
        cases offline <;> simp [h5]

/-- While the stream is active and the engine running, the loop runs
every iteration of the trace: nothing inside the body stops it. -/
theorem captureLoopRun_complete (breathDelay : Nat) (s : StreamState)
    (trace : List CaptureOutcome) (h : s.active = true) :
    (captureLoopRun breathDelay true s trace).2 = trace.length := by
  induction trace generalizing s with
  | nil => rfl
  | cons o os ih =>
      rw [captureLoopRun]
      simp only [h, Bool.and_self, if_true]
      rw [ih _ (by rw [captureIterate_active, h])]
      simp

/-- C8: streaming self-healing. (i) an iteration that starts at 5
consecutive capture failures performs the 3000 ms backoff sleep and
resets the failure counter to 0 — whatever the next capture would
yield — so attempts resume afterwards; (ii) no iteration changes the
stream's active flag, so capture failures never terminate the loop:
while the stream is active and the engine running the loop runs through
every outcome of an arbitrary trace, failures included; (iii) once the
stream is explicitly stopped (active false) or the engine stopped
(isRunning false), the loop exits at once, running no iteration. -/
theorem C8_capture_self_healing (breathDelay : Nat) (s : StreamState)
    (o : CaptureOutcome) (trace : List CaptureOutcome)
    (isRunning : Bool) :
    (5 ≤ s.consecutiveFailures →
      captureIterate breathDelay s o =
        ({ s with consecutiveFailures := 0 }, 3000)) ∧
    (captureIterate breathDelay s o).1.active = s.active ∧
    (s.active = true →
      (captureLoopRun breathDelay true s trace).2 = trace.length) ∧
    ((s.active && isRunning) = false →
      captureLoopRun breathDelay isRunning s trace = (s, 0)) := by
  refine ⟨?_, captureIterate_active breathDelay s o, ?_, ?_⟩
  · intro h5
    rw [captureIterate.eq_def, if_pos h5]
  · exact captureLoopRun_complete breathDelay s trace
  · intro hstop
    cases trace with
    | nil => rfl
    | cons o2 os =>
        rw [captureLoopRun]
        simp [hstop]

/-- Witness for C8: a stream at the failure threshold backs off and
resets; an all-failure trace of three outcomes runs all three
iterations; a stopped stream runs none. -/
theorem C8_capture_self_healing_witness :
    (captureIterate 20 ⟨true, 5, 0⟩ (.err false) =
      ({ active := true, consecutiveFailures := 0, totalFrames := 0 },
        3000)) ∧
    (captureLoopRun 20 true ⟨true, 0, 0⟩
        [.err false, .err true, .frame 10]).2 = 3 ∧
    captureLoopRun 20 false ⟨true, 0, 0⟩ [.err false] =
      (⟨true, 0, 0⟩, 0) := by
  refine ⟨?_, ?_, ?_⟩
  · exact (C8_capture_self_healing 20 ⟨true, 5, 0⟩ (.err false)
      [] true).1 (by decide)
  · have h := (C8_capture_self_healing 20 ⟨true, 0, 0⟩ (.err false)
      [.err false, .err true, .frame 10] true).2.2.1 (by decide)
    simpa using h
  · exact (C8_capture_self_healing 20 ⟨true, 0, 0⟩ (.err false)
      [.err false] false).2.2.2 (by decide)
